import Mathlib

/-!
Verification of the in-page web inspector (ts/index.ts).

Shallow embedding of the inspector overlay and its log interceptor.
Timestamps from the host monotonic clock (performance.now) are modelled
as naturals; log payloads and DOM strings are Lean strings; the `any`
payload of the console wrappers is `Option String`, with `none` standing
for the JavaScript `undefined`.
-/

namespace Inspector

/-- One record of `logs.general`: `{ ts: performance.now(), data }`. -/
structure LogEntry where
  ts : Nat
  data : String
deriving Repr, DecidableEq

/-- The three wrapped logging channels. -/
inductive Channel
  | log
  | error
  | warn
deriving Repr, DecidableEq

/-- The process-wide console state: the shared `logs.general` sequence and,
per channel, the calls forwarded to the original bound function
(`logs.f.log` / `logs.f.error` / `logs.f.warn`). -/
structure ConsoleState where
  general : List LogEntry
  forwardedLog : List String
  forwardedError : List String
  forwardedWarn : List String
deriving Repr, DecidableEq

def initConsole : ConsoleState :=
  { general := [], forwardedLog := [], forwardedError := [], forwardedWarn := [] }

/-- Wrapper installed over `console.log`: drops an undefined payload,
otherwise forwards to the original channel and appends one entry. -/
def consoleLog (t : Nat) (data : Option String) (s : ConsoleState) : ConsoleState :=
  match data with
  | none => s
  | some d =>
      { s with
        forwardedLog := s.forwardedLog ++ [d]
        general := s.general ++ [⟨t, d⟩] }

/-- Wrapper installed over `console.error`. -/
def consoleError (t : Nat) (data : Option String) (s : ConsoleState) : ConsoleState :=
  match data with
  | none => s
  | some d =>
      { s with
        forwardedError := s.forwardedError ++ [d]
        general := s.general ++ [⟨t, d⟩] }

/-- Wrapper installed over `console.warn`. -/
def consoleWarn (t : Nat) (data : Option String) (s : ConsoleState) : ConsoleState :=
  match data with
  | none => s
  | some d =>
      { s with
        forwardedWarn := s.forwardedWarn ++ [d]
        general := s.general ++ [⟨t, d⟩] }

/-- A call to one of the wrapped channels: the channel, the value of the
monotonic clock at the call, and the payload (`none` = undefined). -/
structure LogCall where
  channel : Channel
  t : Nat
  data : Option String
deriving Repr, DecidableEq

def doLogCall (s : ConsoleState) (c : LogCall) : ConsoleState :=
  match c.channel with
  | .log => consoleLog c.t c.data s
  | .error => consoleError c.t c.data s
  | .warn => consoleWarn c.t c.data s

/-- A sequence of wrapped-channel calls, performed in order. -/
def runCalls (s : ConsoleState) (cs : List LogCall) : ConsoleState :=
  cs.foldl doLogCall s

/-- The entry a defined call contributes to `logs.general`. -/
def entryOf (c : LogCall) : LogEntry :=
  ⟨c.t, c.data.getD ""⟩

lemma doLogCall_general_defined (s : ConsoleState) (c : LogCall) (d : String)
    (hd : c.data = some d) :
    (doLogCall s c).general = s.general ++ [⟨c.t, d⟩] := by
  cases c with
  | mk ch t data =>
    cases ch <;> simp_all [doLogCall, consoleLog, consoleError, consoleWarn]

lemma runCalls_general_defined (cs : List LogCall) (s : ConsoleState)
    (hdef : ∀ c ∈ cs, c.data.isSome) :
    (runCalls s cs).general = s.general ++ cs.map entryOf := by
  induction cs generalizing s with
  | nil => simp [runCalls]
  | cons c cs ih =>
    obtain ⟨d, hd⟩ := Option.isSome_iff_exists.mp (hdef c (by simp))
    have hstep : (doLogCall s c).general = s.general ++ [⟨c.t, d⟩] :=
      doLogCall_general_defined s c d hd
    have : runCalls s (c :: cs) = runCalls (doLogCall s c) cs := rfl
    rw [this, ih (doLogCall s c) (fun x hx => hdef x (by simp [hx]))]
    simp [hstep, entryOf, hd]

/-- C1: every call to a wrapped logging channel with a defined payload appends
exactly one `LogEntry` to the shared `logs.general` sequence; the entries appear
in call order, and — given that the host clock is monotone across the calls —
the timestamps of the whole sequence are non-decreasing. -/
theorem logging_appends_in_call_order (s : ConsoleState) (cs : List LogCall)
    (hdef : ∀ c ∈ cs, c.data.isSome)
    (hmono : List.Chain' (· ≤ ·) (s.general.map LogEntry.ts ++ cs.map LogCall.t)) :
    (runCalls s cs).general = s.general ++ cs.map entryOf ∧
    (runCalls s cs).general.length = s.general.length + cs.length ∧
    List.Chain' (· ≤ ·) ((runCalls s cs).general.map LogEntry.ts) := by
  have h := runCalls_general_defined cs s hdef
  refine ⟨h, by simp [h], ?_⟩
  rw [h]
  simpa [List.map_map, Function.comp, entryOf] using hmono

theorem logging_appends_in_call_order_witness :
    (runCalls initConsole
        [⟨Channel.log, 1, some "a"⟩, ⟨Channel.warn, 2, some "b"⟩]).general =
      initConsole.general ++
        ([⟨Channel.log, 1, some "a"⟩, ⟨Channel.warn, 2, some "b"⟩] :
          List LogCall).map entryOf ∧
    (runCalls initConsole
        [⟨Channel.log, 1, some "a"⟩, ⟨Channel.warn, 2, some "b"⟩]).general.length =
      initConsole.general.length + 2 ∧
    List.Chain' (· ≤ ·)
      ((runCalls initConsole
          [⟨Channel.log, 1, some "a"⟩, ⟨Channel.warn, 2, some "b"⟩]).general.map
        LogEntry.ts) :=
  logging_appends_in_call_order initConsole
    [⟨Channel.log, 1, some "a"⟩, ⟨Channel.warn, 2, some "b"⟩]
    (by decide) (by simp [initConsole, List.chain'_cons])

/-- C7 counterexample: a `console.log` call whose payload is undefined is NOT
forwarded to the original channel — the wrapper returns before the forwarding
line (`if (data === undefined) return;` comes first), so the forwarded list
does not grow at this concrete call. -/
theorem wrapper_undefined_not_forwarded :
    (consoleLog 0 none initConsole).forwardedLog.length ≠
      initConsole.forwardedLog.length + 1 := by decide

/-- C7 amended: each wrapped channel forwards a call to the original channel
exactly when the payload is defined, and then also appends exactly one entry;
a call with an undefined payload is dropped entirely — neither forwarded nor
appended (the whole call is a no-op). -/
theorem wrapper_forward_and_drop (t : Nat) (d : String) (s : ConsoleState) :
    (consoleLog t none s = s ∧ consoleError t none s = s ∧ consoleWarn t none s = s) ∧
    ((consoleLog t (some d) s).forwardedLog = s.forwardedLog ++ [d] ∧
      (consoleLog t (some d) s).general = s.general ++ [⟨t, d⟩]) ∧
    ((consoleError t (some d) s).forwardedError = s.forwardedError ++ [d] ∧
      (consoleError t (some d) s).general = s.general ++ [⟨t, d⟩]) ∧
    ((consoleWarn t (some d) s).forwardedWarn = s.forwardedWarn ++ [d] ∧
      (consoleWarn t (some d) s).general = s.general ++ [⟨t, d⟩]) :=
  ⟨⟨rfl, rfl, rfl⟩, ⟨rfl, rfl⟩, ⟨rfl, rfl⟩, ⟨rfl, rfl⟩⟩

/-! ## The selected-element snapshot and the performance facility -/

/-- Snapshot of a DOM element: the properties the inspector reads and writes.
`computedStyle` is the host-produced dump built from `getComputedStyle`. -/
structure Elem where
  nodeName : String
  id : String
  className : String
  outerHTML : String
  computedStyle : String
deriving Repr, DecidableEq

/-- Dynamic property write `(this.selected as any)[dataName] = value` from the
`ch` action, restricted to the element properties the panel exposes; any other
name creates an expando property that none of the modelled behaviour reads.
(The host re-parse a raw `outerHTML` assignment triggers is out of scope: per
the spec the typed value is assigned as-is.) -/
def setProp (e : Elem) (dataName value : String) : Elem :=
  if dataName = "id" then { e with id := value }
  else if dataName = "className" then { e with className := value }
  else if dataName = "outerHTML" then { e with outerHTML := value }
  else e

/-- A performance mark: name plus the clock value at creation. -/
structure PerfMark where
  name : String
  startTime : Nat
deriving Repr, DecidableEq

/-- A performance measure: name, start time, and signed duration. -/
structure PerfMeasure where
  name : String
  startTime : Nat
  duration : Int
deriving Repr, DecidableEq

/-- State of the host performance entry buffer. -/
structure PerfState where
  marks : List PerfMark
  measures : List PerfMeasure
deriving Repr, DecidableEq

def initPerf : PerfState := { marks := [], measures := [] }

/-- Model of `performance.mark(name)` at clock value `now`. -/
def perfMark (p : PerfState) (name : String) (now : Nat) : PerfState :=
  { p with marks := p.marks ++ [⟨name, now⟩] }

/-- Marks with a given name, in creation order: the entries
`performance.getEntriesByName` returns for a mark name (in this program only
marks carry the queried mark names). -/
def getMarksByName (p : PerfState) (name : String) : List PerfMark :=
  p.marks.filter (fun m => m.name = name)

/-- Measures with a given name, in creation order: the entries
`performance.getEntriesByName` returns for a measure name. -/
def getMeasuresByName (p : PerfState) (name : String) : List PerfMeasure :=
  p.measures.filter (fun m => m.name = name)

/-- Model of `performance.measure(name, startMark, endMark)`: resolves each
mark name to its most recent occurrence and appends a measure whose duration
is the difference of the two mark times; `none` when a named mark is missing
(the host throws a SyntaxError in that case). -/
def perfMeasure (p : PerfState) (name startMark endMark : String) : Option PerfState :=
  match (getMarksByName p startMark).getLast?, (getMarksByName p endMark).getLast? with
  | some ms, some me =>
      some { p with
        measures := p.measures ++
          [⟨name, ms.startTime, (me.startTime : Int) - ms.startTime⟩] }
  | _, _ => none

def clearMarks (p : PerfState) : PerfState := { p with marks := [] }

def clearMeasures (p : PerfState) : PerfState := { p with measures := [] }

/-! ## The panel markup (the `inspectElement` template) -/

/-- Model of `new Option(element.outerHTML).innerHTML`: the host HTML-escapes
the text content. -/
def escapeHTML (s : String) : String :=
  ((s.replace "&" "&amp;").replace "<" "&lt;").replace ">" "&gt;"

/-- One console line of the panel. -/
def logLineHTML (l : LogEntry) : String :=
  "<div class=\"inspect.element\">\x7b" ++ toString l.ts ++ "\x7d " ++ l.data ++ "</div>"

/-- Accumulated console lines (`_logs` in the source). -/
def logsHTML (general : List LogEntry) : String :=
  general.foldl (fun acc l => acc ++ logLineHTML l) ""

/-- A tab button; carries the `active` class when it is the current tab. -/
def tabButton (insId tabName label curTab : String) : String :=
  "<button onclick=\"window[\x27" ++ insId ++ "\x27].sp(event, \x27" ++ tabName ++
    "\x27)\" class=\"inspect.element.tab " ++
    (if curTab = tabName then "active" else "") ++ "\">" ++ label ++ "</button>"

/-- An editable field wired to the `ch` action. -/
def chInput (insId dataName value : String) : String :=
  "<input onchange=\"window[\x27" ++ insId ++ "\x27].ch(event, \x27" ++ dataName ++
    "\x27)\" value=\"" ++ value ++ "\">"

/-- Body of the display tab. -/
def displayTabHTML (insId : String) (e : Elem) : String :=
  "<div class=\"inspect.element\">nodeName: " ++ e.nodeName ++ "</div>" ++
  "<div class=\"inspect.element\">ID: " ++ chInput insId "id" e.id ++ "</div>" ++
  "<div class=\"inspect.element\">className: " ++
    chInput insId "className" e.className ++ "</div>" ++
  "<div class=\"inspect.element\">outerHTML: <textarea rows=\"5\" cols=\"35\" onchange=\"window[\x27" ++
    insId ++ "\x27].ch(event, \x27outerHTML\x27)\">" ++ escapeHTML e.outerHTML ++
    "</textarea></div>" ++
  "<div class=\"inspect.element\">computed: <textarea rows=\"5\" cols=\"35\" disabled>" ++
    e.computedStyle ++ "</textarea></div>"

/-- Body of the console tab. -/
def consoleTabHTML (insId : String) (general : List LogEntry) : String :=
  logsHTML general ++
  "<div class=\"inspect.element\">Run JavaScript: <textarea rows=\"5\" cols=\"35\" onchange=\"window[\x27" ++
    insId ++ "\x27].sp(event, \x27runjs\x27)\"></textarea></div>"

/-- Body of the storage tab. -/
def storageTabHTML (localStorageJSON sessionStorageJSON cookie : String) : String :=
  "<div class=\"inspect.element\">localStorage: <textarea rows=\"5\" cols=\"35\" disabled>" ++
    localStorageJSON ++ "</textarea></div>" ++
  "<div class=\"inspect.element\">sessionStorage: <textarea rows=\"5\" cols=\"35\" disabled>" ++
    sessionStorageJSON ++ "</textarea></div>" ++
  "<div class=\"inspect.element\">cookie: <textarea rows=\"5\" cols=\"35\" disabled>" ++
    cookie ++ "</textarea></div>"

/-- Body of the performance tab; `markActive` is the test
`performance.getEntriesByName("ins-mark").length !== 0`. -/
def performanceTabHTML (insId : String) (markActive : Bool) : String :=
  "<div class=\"inspect.element\"><b>Timestamp Configuration</b>" ++
    (if markActive then
      "Mark already active! Click \"Stamp\" below to end and measure mark."
     else "") ++
  "</div>" ++
  "<div class=\"inspect.element\">" ++
    "<button onclick=\"window[\x27" ++ insId ++
      "\x27].sp(event, \x27mark\x27)\">Mark</button>" ++
    "<button onclick=\"window[\x27" ++ insId ++
      "\x27].sp(event, \x27stamp\x27)\">Stamp</button>" ++
  "</div>"

/-- The conditional chain picking the tab body. In the source the final
fallback of the chain is the JavaScript value `undefined`, which the enclosing
template literal interpolates as the literal text "undefined". -/
def renderTab (insId tab : String) (e : Elem) (general : List LogEntry)
    (localStorageJSON sessionStorageJSON cookie : String) (markActive : Bool) : String :=
  if tab = "display" then displayTabHTML insId e
  else if tab = "console" then consoleTabHTML insId general
  else if tab = "storage" then storageTabHTML localStorageJSON sessionStorageJSON cookie
  else if tab = "performance" then performanceTabHTML insId markActive
  else "undefined"

/-- The full innerHTML written into the panel window on each render. -/
def renderWindow (insId tab : String) (e : Elem) (general : List LogEntry)
    (localStorageJSON sessionStorageJSON cookie : String)
    (sideMode markActive : Bool) : String :=
  "<h2>" ++ e.nodeName ++ " #" ++ e.id ++ " ." ++ e.className ++ "</h2>" ++
  "<p>Press ESCAPE to disable.</p><br>" ++
  "<div class=\"inspect.element\" style=\"display: flex; flex-wrap: wrap; justify-content: center;\">" ++
    tabButton insId "display" "Display" tab ++
    tabButton insId "console" "Console" tab ++
    tabButton insId "storage" "Storage" tab ++
    tabButton insId "performance" "Performance" tab ++
    "<button onclick=\"window[\x27" ++ insId ++
      "\x27].sp(event, \x27reload\x27)\" class=\"inspect.element.tab\">Refresh</button>" ++
  "</div>" ++
  "<div class=\"inspect.element\">Side Mode: <input type=\"checkbox\" rows=\"5\" cols=\"35\" onchange=\"window[\x27" ++
    insId ++ "\x27].sp(event, \x27sideMode\x27)\" " ++
    (if sideMode then "checked" else "") ++ "></div>" ++
  renderTab insId tab e general localStorageJSON sessionStorageJSON cookie markActive

/-! ## The inspector session state and its operations -/

/-- The mutable inspector session together with the DOM bits it owns: the
activation flag, current tab (a string, as tab tags are at runtime), the
selected-element reference, the `off` class of the panel window, the
`data-mode` attribute of the document root, the two side-mode marker
attributes, the panel position and markup, and a ghost history flag
`everInspected` recording that some `inspectElement` call completed its
active branch (used only to state the selection invariant). -/
structure InspectorState where
  active : Bool
  tab : String
  selected : Option Nat
  offClass : Bool
  dataMode : Option String
  sideModeWindow : Bool
  sideModeHtml : Bool
  winLeft : Int
  winTop : Int
  panelHTML : String
  everInspected : Bool
deriving Repr, DecidableEq

/-- The whole modelled world: session, the page elements (indexed by `Nat`
references standing for DOM node identity), console and performance state,
host storage snapshots, the random per-session id, and the monotonic clock. -/
structure World where
  insp : InspectorState
  elems : List Elem
  console : ConsoleState
  perf : PerfState
  localStorageJSON : String
  sessionStorageJSON : String
  cookie : String
  insId : String
  now : Nat
deriving Repr, DecidableEq

/-- Session state right after the constructor ran: inactive, display tab, no
selection, panel hidden by the `off` class, no `data-mode` attribute, and both
side-mode attributes set (the constructor ends by toggling them on). -/
def initInspector : InspectorState :=
  { active := false
    tab := "display"
    selected := none
    offClass := true
    dataMode := none
    sideModeWindow := true
    sideModeHtml := true
    winLeft := -50
    winTop := -50
    panelHTML := ""
    everInspected := false }

/-- The world right after the constructor, parametrised by the host-supplied
page content, storage snapshots and the random session id. -/
def initWorld (elems : List Elem)
    (localStorageJSON sessionStorageJSON cookie insId : String) : World :=
  { insp := initInspector
    elems := elems
    console := initConsole
    perf := initPerf
    localStorageJSON := localStorageJSON
    sessionStorageJSON := sessionStorageJSON
    cookie := cookie
    insId := insId
    now := 0 }

/-- The `performance.getEntriesByName("ins-mark").length !== 0` test the
performance tab renders. -/
def markActive (p : PerfState) : Bool :=
  !(getMarksByName p "ins-mark").isEmpty

/-- Model of `Inspector.toggle`: flips the `data-mode` attribute of the root
(remove when "inspect", set otherwise), flips `active`, toggles the `off`
class of the window and both side-mode attributes. -/
def toggle (w : World) : World :=
  { w with insp := { w.insp with
      dataMode := if w.insp.dataMode = some "inspect" then none else some "inspect"
      active := !w.insp.active
      offClass := !w.insp.offClass
      sideModeHtml := !w.insp.sideModeHtml
      sideModeWindow := !w.insp.sideModeWindow } }

/-- Model of `Inspector.inspectElement(element, position)`: a no-op when the
inspector is inactive; otherwise positions the window, regenerates the panel
markup from the current state, and records the target as selected. The `ref`
is the identity of the DOM node passed in; a dangling reference (absent from
the page model) leaves the world unchanged — DOM-originated calls always pass
a live node. -/
def inspectElement (w : World) (ref : Nat) (pos : Int × Int) : World :=
  if w.insp.active = false then w
  else
    match w.elems.get? ref with
    | none => w
    | some e =>
        { w with insp := { w.insp with
            winLeft := pos.1
            winTop := pos.2
            panelHTML := renderWindow w.insId w.insp.tab e w.console.general
              w.localStorageJSON w.sessionStorageJSON w.cookie
              w.insp.sideModeWindow (markActive w.perf)
            selected := some ref
            everInspected := true } }

/-- Model of the `ch` window function: with no selection, return; otherwise
write the field value into the named property of the selected element and
inspect it again at the event position. -/
def ch (w : World) (value dataName : String) (pos : Int × Int) : World :=
  match w.insp.selected with
  | none => w
  | some ref =>
      match w.elems.get? ref with
      | none => w
      | some e =>
          inspectElement
            { w with elems := w.elems.set ref (setProp e dataName value) } ref pos

/-- The string the `stamp` branch logs:
`STAMP RESULT: ` followed by the JSON of start and duration, each suffixed
with `ms`. -/
def stampMsg (startTime : Nat) (duration : Int) : String :=
  "STAMP RESULT: \x7b\"start\":\"" ++ toString startTime ++
    "ms\",\"duration\":\"" ++ toString duration ++ "ms\"\x7d"

/-- The `stamp` branch of `sp`: create the end mark, measure between the two
marks, log the result through the wrapped `console.log`, clear all marks and
measures, and switch to the console tab. Returns the world plus whether the
branch completed normally; when the start mark is missing the measure throws
in the host, aborting the handler after the end mark was created, and when it
succeeds the measure just appended makes the queried entry list non-empty. -/
def spStamp (w : World) : World × Bool :=
  let p1 := perfMark w.perf "ins-end-mark" w.now
  match perfMeasure p1 "ins-s-to-e-measure" "ins-mark" "ins-end-mark" with
  | none => ({ w with perf := p1 }, false)
  | some p2 =>
      match (getMeasuresByName p2 "ins-s-to-e-measure").head? with
      | none => ({ w with perf := p2 }, false)
      | some m =>
          ({ w with
              console := consoleLog w.now (some (stampMsg m.startTime m.duration)) w.console
              perf := clearMeasures (clearMarks p2)
              insp := { w.insp with tab := "console" } }, true)

/-- Model of the `sp` window function: with no selection, return; otherwise
dispatch on the tag and inspect the selected element again at the event
position (the re-render is skipped only when the stamp branch throws). The
script a `runjs` tag evaluates runs in the host; only its `console.log` echo
of the typed text is part of this model. -/
def sp (w : World) (eventValue dataName : String) (pos : Int × Int) : World :=
  match w.insp.selected with
  | none => w
  | some ref =>
      if dataName = "stamp" then
        let r := spStamp w
        if r.2 then inspectElement r.1 ref pos else r.1
      else
        let w1 :=
          if dataName = "sideMode" then
            { w with insp := { w.insp with
                sideModeWindow := !w.insp.sideModeWindow
                sideModeHtml := !w.insp.sideModeHtml } }
          else if dataName = "display" then
            { w with insp := { w.insp with tab := "display" } }
          else if dataName = "console" then
            { w with insp := { w.insp with tab := "console" } }
          else if dataName = "storage" then
            { w with insp := { w.insp with tab := "storage" } }
          else if dataName = "performance" then
            { w with insp := { w.insp with tab := "performance" } }
          else if dataName = "runjs" then
            { w with console := consoleLog w.now (some ("~> " ++ eventValue)) w.console }
          else if dataName = "mark" then
            { w with perf := perfMark w.perf "ins-mark" w.now }
          else w
        inspectElement w1 ref pos

/-- The document contextmenu listener: returns unless the inspector is active
and the target is not part of the inspector itself; otherwise inspects the
target at the pointer position. -/
def contextmenuHandler (w : World) (ref : Nat) (targetIsInspector : Bool)
    (pos : Int × Int) : World :=
  if w.insp.active = false then w
  else if targetIsInspector then w
  else inspectElement w ref pos

/-- The document keydown listener: when active and the key is Escape, toggle
the inspector. -/
def keydownHandler (w : World) (key : String) : World :=
  if w.insp.active = false then w
  else if key = "Escape" then toggle w
  else w

/-- One public operation on the session: a clock advance, an external
`toggle()` call, the two document listeners, a direct `inspectElement` call,
the `ch` and `sp` window functions, a wrapped logging call, or one of the two
global error listeners (which push a log entry with no undefined check). -/
inductive Step : World → World → Prop
  | tick (w : World) (d : Nat) : Step w { w with now := w.now + d }
  | toggleCall (w : World) : Step w (toggle w)
  | contextmenu (w : World) (ref : Nat) (b : Bool) (pos : Int × Int) :
      Step w (contextmenuHandler w ref b pos)
  | keydown (w : World) (k : String) : Step w (keydownHandler w k)
  | inspect (w : World) (ref : Nat) (pos : Int × Int) :
      Step w (inspectElement w ref pos)
  | chCall (w : World) (v dn : String) (pos : Int × Int) : Step w (ch w v dn pos)
  | spCall (w : World) (v dn : String) (pos : Int × Int) : Step w (sp w v dn pos)
  | logEvt (w : World) (c : Channel) (d : Option String) :
      Step w { w with console := doLogCall w.console ⟨c, w.now, d⟩ }
  | errorEvt (w : World) (msg : String) :
      Step w
        { w with console :=
            { w.console with general := w.console.general ++ [⟨w.now, msg⟩] } }

/-- States reachable from a given initial world by the public operations. -/
def Reachable (w0 w : World) : Prop :=
  Relation.ReflTransGen Step w0 w

/-! ## Frame lemmas -/

lemma inspectElement_elems (w : World) (ref : Nat) (pos : Int × Int) :
    (inspectElement w ref pos).elems = w.elems := by
  unfold inspectElement; repeat' split
  all_goals rfl

lemma inspectElement_console (w : World) (ref : Nat) (pos : Int × Int) :
    (inspectElement w ref pos).console = w.console := by
  unfold inspectElement; repeat' split
  all_goals rfl

lemma inspectElement_perf (w : World) (ref : Nat) (pos : Int × Int) :
    (inspectElement w ref pos).perf = w.perf := by
  unfold inspectElement; repeat' split
  all_goals rfl

lemma inspectElement_active (w : World) (ref : Nat) (pos : Int × Int) :
    (inspectElement w ref pos).insp.active = w.insp.active := by
  unfold inspectElement; repeat' split
  all_goals rfl

lemma inspectElement_offClass (w : World) (ref : Nat) (pos : Int × Int) :
    (inspectElement w ref pos).insp.offClass = w.insp.offClass := by
  unfold inspectElement; repeat' split
  all_goals rfl

lemma inspectElement_tab (w : World) (ref : Nat) (pos : Int × Int) :
    (inspectElement w ref pos).insp.tab = w.insp.tab := by
  unfold inspectElement; repeat' split
  all_goals rfl

lemma inspectElement_sideModeWindow (w : World) (ref : Nat) (pos : Int × Int) :
    (inspectElement w ref pos).insp.sideModeWindow = w.insp.sideModeWindow := by
  unfold inspectElement; repeat' split
  all_goals rfl

lemma inspectElement_sideModeHtml (w : World) (ref : Nat) (pos : Int × Int) :
    (inspectElement w ref pos).insp.sideModeHtml = w.insp.sideModeHtml := by
  unfold inspectElement; repeat' split
  all_goals rfl

lemma inspectElement_dataMode (w : World) (ref : Nat) (pos : Int × Int) :
    (inspectElement w ref pos).insp.dataMode = w.insp.dataMode := by
  unfold inspectElement; repeat' split
  all_goals rfl

lemma inspectElement_selected_stable (w : World) (ref : Nat) (pos : Int × Int)
    (h : w.insp.selected = some ref) :
    (inspectElement w ref pos).insp.selected = some ref := by
  unfold inspectElement; repeat' split
  all_goals simp [h]

/-! ## Claim theorems about session operations -/

/-- C3: when `active` is false, `inspectElement` is a no-op on the whole
world — the session, the selected element, the panel markup, and every other
piece of state are left untouched. -/
theorem inspectElement_inactive_noop (w : World) (ref : Nat) (pos : Int × Int)
    (h : w.insp.active = false) :
    inspectElement w ref pos = w := by
  unfold inspectElement
  simp [h]

theorem inspectElement_inactive_noop_witness :
    (initWorld [⟨"DIV", "a", "b", "<div></div>", ""⟩] "" "" "" "i").insp.active = false ∧
    inspectElement (initWorld [⟨"DIV", "a", "b", "<div></div>", ""⟩] "" "" "" "i")
        0 (3, 4) =
      initWorld [⟨"DIV", "a", "b", "<div></div>", ""⟩] "" "" "" "i" :=
  ⟨rfl, inspectElement_inactive_noop
    (initWorld [⟨"DIV", "a", "b", "<div></div>", ""⟩] "" "" "" "i") 0 (3, 4) rfl⟩

/-- C9: calling `toggle()` twice from the initial session state restores
`active`, the `off` visibility class of the panel, the `data-mode` marker
attribute of the document root, and both side-mode marker attributes to their
initial values. -/
theorem toggle_twice_from_initial (elems : List Elem)
    (ls ss ck insId : String) :
    (toggle (toggle (initWorld elems ls ss ck insId))).insp.active =
        (initWorld elems ls ss ck insId).insp.active ∧
    (toggle (toggle (initWorld elems ls ss ck insId))).insp.offClass =
        (initWorld elems ls ss ck insId).insp.offClass ∧
    (toggle (toggle (initWorld elems ls ss ck insId))).insp.dataMode =
        (initWorld elems ls ss ck insId).insp.dataMode ∧
    (toggle (toggle (initWorld elems ls ss ck insId))).insp.sideModeWindow =
        (initWorld elems ls ss ck insId).insp.sideModeWindow ∧
    (toggle (toggle (initWorld elems ls ss ck insId))).insp.sideModeHtml =
        (initWorld elems ls ss ck insId).insp.sideModeHtml := by
  refine ⟨rfl, rfl, ?_, rfl, rfl⟩
  simp [toggle, initWorld, initInspector]

/-- C2: with the inspector active and an element selected, the `ch` edit
action overwrites the named property of the selected element with the new
field value, and then re-renders the panel against the mutated element, so
the following render is computed from the new value; in particular the id,
class-name and raw-markup names overwrite exactly the matching property. -/
theorem ch_overwrites_and_rerenders (w : World) (ref : Nat) (e : Elem)
    (value dataName : String) (pos : Int × Int)
    (hsel : w.insp.selected = some ref)
    (helem : w.elems.get? ref = some e)
    (hact : w.insp.active = true) :
    (ch w value dataName pos).elems.get? ref = some (setProp e dataName value) ∧
    (ch w value dataName pos).insp.panelHTML =
      renderWindow w.insId w.insp.tab (setProp e dataName value) w.console.general
        w.localStorageJSON w.sessionStorageJSON w.cookie
        w.insp.sideModeWindow (markActive w.perf) ∧
    (setProp e "id" value).id = value ∧
    (setProp e "className" value).className = value ∧
    (setProp e "outerHTML" value).outerHTML = value := by
  obtain ⟨hlt, -⟩ := List.get?_eq_some.mp helem
  have hset : (w.elems.set ref (setProp e dataName value)).get? ref =
      some (setProp e dataName value) :=
    List.get?_set_eq_of_lt _ hlt
  have hch : ch w value dataName pos =
      inspectElement
        { w with elems := w.elems.set ref (setProp e dataName value) } ref pos := by
    unfold ch
    rw [hsel]
    simp only [helem]
  constructor
  · rw [hch, inspectElement_elems]
    exact hset
  refine ⟨?_, ?_, ?_, ?_⟩
  · rw [hch]
    unfold inspectElement
    simp only [hact, hset]
    simp
  · simp [setProp]
  · by_cases h : "className" = "id" <;> simp_all [setProp]
  · by_cases h1 : "outerHTML" = "id" <;> by_cases h2 : "outerHTML" = "className" <;>
      simp_all [setProp]

/-- A small concrete world for evaluating theorems at concrete inputs: one
DIV element on the page, inspector active with that element selected. -/
def sampleElem : Elem :=
  ⟨"DIV", "foo", "cls", "<div id=foo></div>", "color: black;"⟩

def sampleWorld : World :=
  { insp :=
      { active := true
        tab := "display"
        selected := some 0
        offClass := false
        dataMode := some "inspect"
        sideModeWindow := true
        sideModeHtml := true
        winLeft := -50
        winTop := -50
        panelHTML := ""
        everInspected := true }
    elems := [sampleElem]
    console := initConsole
    perf := initPerf
    localStorageJSON := "\x7b\x7d"
    sessionStorageJSON := "\x7b\x7d"
    cookie := ""
    insId := "inspector-1"
    now := 5 }

theorem ch_overwrites_and_rerenders_witness :
    (ch sampleWorld "bar" "id" (1, 2)).elems.get? 0 =
        some (setProp sampleElem "id" "bar") ∧
    (ch sampleWorld "bar" "id" (1, 2)).insp.panelHTML =
      renderWindow sampleWorld.insId sampleWorld.insp.tab
        (setProp sampleElem "id" "bar") sampleWorld.console.general
        sampleWorld.localStorageJSON sampleWorld.sessionStorageJSON
        sampleWorld.cookie sampleWorld.insp.sideModeWindow
        (markActive sampleWorld.perf) ∧
    (setProp sampleElem "id" "bar").id = "bar" ∧
    (setProp sampleElem "className" "bar").className = "bar" ∧
    (setProp sampleElem "outerHTML" "bar").outerHTML = "bar" :=
  ch_overwrites_and_rerenders sampleWorld 0 sampleElem "bar" "id" (1, 2) rfl rfl rfl

/-! ## The C4 session invariant -/

/-- The session invariant: the `off` class is the negation of `active`
(the panel is rendered iff the inspector is active), and a defined selection
implies a completed active `inspectElement` in the history. -/
def sessionInvariant (w : World) : Prop :=
  w.insp.offClass = !w.insp.active ∧
  (w.insp.selected.isSome → w.insp.everInspected = true)

lemma sessionInvariant_inspectElement (w : World) (ref : Nat) (pos : Int × Int)
    (h : sessionInvariant w) : sessionInvariant (inspectElement w ref pos) := by
  unfold inspectElement
  repeat' split
  all_goals first
    | exact h
    | exact ⟨h.1, fun _ => rfl⟩

lemma sessionInvariant_toggle (w : World) (h : sessionInvariant w) :
    sessionInvariant (toggle w) := by
  refine ⟨?_, h.2⟩
  simp [toggle, h.1]

lemma sessionInvariant_ch (w : World) (v dn : String) (pos : Int × Int)
    (h : sessionInvariant w) : sessionInvariant (ch w v dn pos) := by
  unfold ch
  repeat' split
  all_goals first
    | exact h
    | exact sessionInvariant_inspectElement _ _ _ h

lemma sessionInvariant_spStamp (w : World) (h : sessionInvariant w) :
    sessionInvariant (spStamp w).1 := by
  unfold spStamp
  simp only []
  repeat' split
  all_goals exact ⟨h.1, h.2⟩

lemma sessionInvariant_sp (w : World) (v dn : String) (pos : Int × Int)
    (h : sessionInvariant w) : sessionInvariant (sp w v dn pos) := by
  unfold sp
  cases hsel : w.insp.selected with
  | none => simp only [hsel]; exact h
  | some ref =>
      simp only [hsel]
      by_cases hdn : dn = "stamp"
      · simp only [hdn, if_pos]
        split
        · exact sessionInvariant_inspectElement _ _ _ (sessionInvariant_spStamp w h)
        · exact sessionInvariant_spStamp w h
      · have hEver : w.insp.everInspected = true := h.2 (by rw [hsel]; rfl)
        simp only [if_neg hdn]
        repeat' split
        all_goals exact sessionInvariant_inspectElement _ _ _ ⟨h.1, fun _ => hEver⟩

lemma sessionInvariant_step {w w' : World} (hs : Step w w')
    (h : sessionInvariant w) : sessionInvariant w' := by
  cases hs with
  | tick d => exact h
  | toggleCall => exact sessionInvariant_toggle w h
  | contextmenu ref b pos =>
      unfold contextmenuHandler
      repeat' split
      all_goals first
        | exact h
        | exact sessionInvariant_inspectElement _ _ _ h
  | keydown k =>
      unfold keydownHandler
      repeat' split
      all_goals first
        | exact h
        | exact sessionInvariant_toggle w h
  | inspect ref pos => exact sessionInvariant_inspectElement _ _ _ h
  | chCall v dn pos => exact sessionInvariant_ch w v dn pos h
  | spCall v dn pos => exact sessionInvariant_sp w v dn pos h
  | logEvt c d => exact h
  | errorEvt msg => exact h

/-- C4: in every state reachable from the initial session state by the public
operations, the panel is rendered (the `off` class absent) exactly when
`active` is true, and the selection is defined only after some
`inspectElement` call completed while the inspector was active (recorded by
the `everInspected` history flag). -/
theorem reachable_panel_invariant (elems : List Elem) (ls ss ck insId : String)
    (w : World) (h : Reachable (initWorld elems ls ss ck insId) w) :
    (w.insp.offClass = false ↔ w.insp.active = true) ∧
    (w.insp.selected.isSome → w.insp.everInspected = true) := by
  have hinv : sessionInvariant w := by
    induction h with
    | refl => exact ⟨rfl, by intro hc; simp [initWorld, initInspector] at hc⟩
    | tail _ step ih => exact sessionInvariant_step step ih
  refine ⟨?_, hinv.2⟩
  rw [hinv.1]
  cases w.insp.active <;> simp

theorem reachable_panel_invariant_witness :
    ((initWorld [] "" "" "" "i").insp.offClass = false ↔
        (initWorld [] "" "" "" "i").insp.active = true) ∧
    ((initWorld [] "" "" "" "i").insp.selected.isSome →
        (initWorld [] "" "" "" "i").insp.everInspected = true) :=
  reachable_panel_invariant [] "" "" "" "i" _ Relation.ReflTransGen.refl

/-! ## C5: the render function -/

lemma inspectElement_now (w : World) (ref : Nat) (pos : Int × Int) :
    (inspectElement w ref pos).now = w.now := by
  unfold inspectElement; repeat' split
  all_goals rfl

lemma inspectElement_panelHTML (w : World) (ref : Nat) (pos : Int × Int)
    (e : Elem) (ha : w.insp.active = true) (he : w.elems.get? ref = some e) :
    (inspectElement w ref pos).insp.panelHTML =
      renderWindow w.insId w.insp.tab e w.console.general
        w.localStorageJSON w.sessionStorageJSON w.cookie
        w.insp.sideModeWindow (markActive w.perf) := by
  unfold inspectElement
  rw [he]
  simp [ha]

/-- C5 counterexample: at the concrete tab value "bogus" — outside the four
recognized tabs — the render does NOT produce empty tab markup: the fallback
branch of the conditional chain is the JavaScript value `undefined`, which the
template literal interpolates as the literal text "undefined". -/
theorem renderTab_unknown_not_empty :
    ("bogus" ≠ "display" ∧ "bogus" ≠ "console" ∧ "bogus" ≠ "storage" ∧
      "bogus" ≠ "performance") ∧
    renderTab "i" "bogus" ⟨"DIV", "a", "b", "c", "d"⟩ [] "" "" "" false ≠ "" := by
  exact ⟨⟨by decide, by decide, by decide, by decide⟩, by decide⟩

/-- C5 amended: the panel render is a deterministic function of the current
tab, the selected element snapshot, the log sequence, the storage snapshot —
together with the side-mode flag, the presence of a pending performance mark
and the session id, which the markup also reads — via a 4-way branch on the
tab (display / console / storage / performance); for a tab value outside
these four the tab area is the literal text "undefined", not empty markup. -/
theorem render_pure_function_and_fallback :
    (∀ w1 w2 : World, ∀ ref1 ref2 : Nat, ∀ e1 e2 : Elem, ∀ pos1 pos2 : Int × Int,
      w1.insp.active = true → w2.insp.active = true →
      w1.elems.get? ref1 = some e1 → w2.elems.get? ref2 = some e2 → e1 = e2 →
      w1.insp.tab = w2.insp.tab →
      w1.console.general = w2.console.general →
      w1.localStorageJSON = w2.localStorageJSON →
      w1.sessionStorageJSON = w2.sessionStorageJSON →
      w1.cookie = w2.cookie →
      w1.insp.sideModeWindow = w2.insp.sideModeWindow →
      markActive w1.perf = markActive w2.perf →
      w1.insId = w2.insId →
      (inspectElement w1 ref1 pos1).insp.panelHTML =
        (inspectElement w2 ref2 pos2).insp.panelHTML) ∧
    (∀ (insId tab : String) (e : Elem) (general : List LogEntry)
        (ls ss ck : String) (mk : Bool),
      tab ≠ "display" → tab ≠ "console" → tab ≠ "storage" → tab ≠ "performance" →
      renderTab insId tab e general ls ss ck mk = "undefined") := by
  constructor
  · intro w1 w2 ref1 ref2 e1 e2 pos1 pos2 ha1 ha2 he1 he2 hee htab hlog hls hss
      hck hsm hmka hid
    rw [inspectElement_panelHTML w1 ref1 pos1 e1 ha1 he1,
      inspectElement_panelHTML w2 ref2 pos2 e2 ha2 he2,
      hee, htab, hlog, hls, hss, hck, hsm, hmka, hid]
  · intro insId tab e general ls ss ck mk h1 h2 h3 h4
    unfold renderTab
    rw [if_neg h1, if_neg h2, if_neg h3, if_neg h4]

theorem render_pure_function_and_fallback_witness :
    (inspectElement sampleWorld 0 (1, 2)).insp.panelHTML =
      (inspectElement sampleWorld 0 (3, 4)).insp.panelHTML ∧
    renderTab "i" "bogus" ⟨"DIV", "a", "b", "c", "d"⟩ [] "" "" "" false =
      "undefined" :=
  ⟨render_pure_function_and_fallback.1 sampleWorld sampleWorld 0 0
      sampleElem sampleElem (1, 2) (3, 4)
      rfl rfl rfl rfl rfl rfl rfl rfl rfl rfl rfl rfl rfl,
    render_pure_function_and_fallback.2 "i" "bogus" ⟨"DIV", "a", "b", "c", "d"⟩
      [] "" "" "" false (by decide) (by decide) (by decide) (by decide)⟩

/-! ## C6: unrecognized special-action tags -/

/-- C6 counterexample: with an element selected and the inspector active, a
`sp` call with the unrecognized tag "reload" is not a no-op — at this concrete
state it moves the panel window to the event position (this very fall-through
is what the Refresh button relies on). -/
theorem sp_unknown_tag_not_noop :
    (sp sampleWorld "" "reload" (3, 4)).insp.winLeft ≠
        sampleWorld.insp.winLeft ∧
    sp sampleWorld "" "reload" (3, 4) ≠ sampleWorld := by
  refine ⟨by decide, fun hc => ?_⟩
  have h2 : (sp sampleWorld "" "reload" (3, 4)).insp.winLeft =
      sampleWorld.insp.winLeft := by rw [hc]
  revert h2
  decide

/-- C6 amended: an unrecognized tag falls through the dispatch with no
tag-specific effect, but the call is not a no-op: with an element selected,
`sp` still re-inspects it — repositioning the panel and regenerating its
markup — exactly as after any recognized tag, while the tab, the side-mode
flags, the console log, the performance state and the page elements stay
unchanged; with no selection the call does nothing at all. -/
theorem sp_unknown_tag_rerenders_only (w : World) (v tag : String)
    (pos : Int × Int)
    (h1 : tag ≠ "sideMode") (h2 : tag ≠ "display") (h3 : tag ≠ "console")
    (h4 : tag ≠ "storage") (h5 : tag ≠ "performance") (h6 : tag ≠ "runjs")
    (h7 : tag ≠ "mark") (h8 : tag ≠ "stamp") :
    sp w v tag pos =
      (match w.insp.selected with
        | none => w
        | some ref => inspectElement w ref pos) ∧
    (sp w v tag pos).insp.tab = w.insp.tab ∧
    (sp w v tag pos).console = w.console ∧
    (sp w v tag pos).perf = w.perf ∧
    (sp w v tag pos).elems = w.elems ∧
    (sp w v tag pos).insp.sideModeWindow = w.insp.sideModeWindow ∧
    (sp w v tag pos).insp.sideModeHtml = w.insp.sideModeHtml := by
  have hmain : sp w v tag pos =
      (match w.insp.selected with
        | none => w
        | some ref => inspectElement w ref pos) := by
    unfold sp
    cases hsel : w.insp.selected with
    | none => rfl
    | some ref =>
        simp only [if_neg h8, if_neg h1, if_neg h2, if_neg h3, if_neg h4,
          if_neg h5, if_neg h6, if_neg h7]
  refine ⟨hmain, ?_, ?_, ?_, ?_, ?_, ?_⟩ <;> rw [hmain] <;>
    cases hsel : w.insp.selected <;>
    simp [inspectElement_tab, inspectElement_console, inspectElement_perf,
      inspectElement_elems, inspectElement_sideModeWindow,
      inspectElement_sideModeHtml]

theorem sp_unknown_tag_rerenders_only_witness :
    (sp sampleWorld "" "reload" (3, 4) =
      (match sampleWorld.insp.selected with
        | none => sampleWorld
        | some ref => inspectElement sampleWorld ref (3, 4)) ∧
    (sp sampleWorld "" "reload" (3, 4)).insp.tab = sampleWorld.insp.tab ∧
    (sp sampleWorld "" "reload" (3, 4)).console = sampleWorld.console ∧
    (sp sampleWorld "" "reload" (3, 4)).perf = sampleWorld.perf ∧
    (sp sampleWorld "" "reload" (3, 4)).elems = sampleWorld.elems ∧
    (sp sampleWorld "" "reload" (3, 4)).insp.sideModeWindow =
        sampleWorld.insp.sideModeWindow ∧
    (sp sampleWorld "" "reload" (3, 4)).insp.sideModeHtml =
        sampleWorld.insp.sideModeHtml) :=
  sp_unknown_tag_rerenders_only sampleWorld "" "reload" (3, 4)
    (by decide) (by decide) (by decide) (by decide) (by decide) (by decide)
    (by decide) (by decide)

/-! ## C10 and C8: the performance mark / stamp actions -/

lemma getMarksByName_after_end_mark (w : World) :
    getMarksByName (perfMark w.perf "ins-end-mark" w.now) "ins-mark" =
      getMarksByName w.perf "ins-mark" := by
  unfold getMarksByName perfMark
  simp

lemma spStamp_completes (w : World)
    (hmk : getMarksByName w.perf "ins-mark" ≠ []) :
    (spStamp w).2 = true ∧ (spStamp w).1.insp.tab = "console" := by
  have h1 : ((getMarksByName (perfMark w.perf "ins-end-mark" w.now)
      "ins-mark").getLast?).isSome := by
    rw [getMarksByName_after_end_mark]
    simp [List.getLast?_isSome, hmk]
  obtain ⟨ms, hms⟩ := Option.isSome_iff_exists.mp h1
  have h2 : getMarksByName (perfMark w.perf "ins-end-mark" w.now)
      "ins-end-mark" =
      (w.perf.marks.filter (fun m => m.name = "ins-end-mark")) ++
        [⟨"ins-end-mark", w.now⟩] := by
    unfold getMarksByName perfMark
    simp
  have h2s : ((getMarksByName (perfMark w.perf "ins-end-mark" w.now)
      "ins-end-mark").getLast?).isSome := by
    rw [h2]
    simp [List.getLast?_isSome]
  obtain ⟨me, hme⟩ := Option.isSome_iff_exists.mp h2s
  have hmeas : perfMeasure (perfMark w.perf "ins-end-mark" w.now)
      "ins-s-to-e-measure" "ins-mark" "ins-end-mark" =
      some { perfMark w.perf "ins-end-mark" w.now with
        measures := (perfMark w.perf "ins-end-mark" w.now).measures ++
          [⟨"ins-s-to-e-measure", ms.startTime,
            (me.startTime : Int) - ms.startTime⟩] } := by
    unfold perfMeasure
    rw [hms, hme]
  have hhead : (((getMeasuresByName
      { perfMark w.perf "ins-end-mark" w.now with
        measures := (perfMark w.perf "ins-end-mark" w.now).measures ++
          [⟨"ins-s-to-e-measure", ms.startTime,
            (me.startTime : Int) - ms.startTime⟩] }
      "ins-s-to-e-measure")).head?).isSome := by
    unfold getMeasuresByName
    simp [List.head?_isSome, List.filter_append]
  obtain ⟨m0, hm0⟩ := Option.isSome_iff_exists.mp hhead
  unfold spStamp
  simp only []
  rw [hmeas]
  simp only []
  rw [hm0]
  exact ⟨rfl, rfl⟩

/-- C10: whenever an element is selected and a start mark is pending (so the
measurement completes instead of throwing in the host), the "stamp" special
action switches the current tab to "console" as a side effect, besides
measuring, logging and clearing. -/
theorem stamp_switches_to_console (w : World) (ref : Nat) (v : String)
    (pos : Int × Int)
    (hsel : w.insp.selected = some ref)
    (hmk : getMarksByName w.perf "ins-mark" ≠ []) :
    (sp w v "stamp" pos).insp.tab = "console" := by
  have hc := spStamp_completes w hmk
  unfold sp
  rw [hsel]
  simp only [hc.1]
  simp only [if_pos rfl, reduceIte]
  rw [inspectElement_tab]
  exact hc.2

theorem stamp_switches_to_console_witness :
    (sp { sampleWorld with perf := ⟨[⟨"ins-mark", 2⟩], []⟩ }
        "" "stamp" (3, 4)).insp.tab = "console" :=
  stamp_switches_to_console
    { sampleWorld with perf := ⟨[⟨"ins-mark", 2⟩], []⟩ } 0 "" (3, 4)
    rfl (by decide)

lemma spStamp_single_mark (w : World) (t0 : Nat)
    (hp : w.perf = ⟨[⟨"ins-mark", t0⟩], []⟩) :
    spStamp w = ({ w with
        console := consoleLog w.now
          (some (stampMsg t0 ((w.now : Int) - t0))) w.console
        perf := ⟨[], []⟩
        insp := { w.insp with tab := "console" } }, true) := by
  unfold spStamp
  rw [hp]
  rfl

lemma sp_mark_eq (w : World) (ref : Nat) (v : String) (pos : Int × Int)
    (hsel : w.insp.selected = some ref) :
    sp w v "mark" pos =
      inspectElement { w with perf := perfMark w.perf "ins-mark" w.now }
        ref pos := by
  unfold sp
  rw [hsel]
  rfl

/-- C8: from a state with no performance marks or measures and an element
selected, issuing one "mark" action and then one "stamp" action (with the
clock advanced by `d` in between) produces exactly one measurement log entry,
whose measured duration `d` is non-negative, and leaves no performance marks
or measures behind. -/
theorem mark_then_stamp (w w1 w2 : World) (ref : Nat) (v1 v2 : String)
    (pos1 pos2 : Int × Int) (d : Nat)
    (hsel : w.insp.selected = some ref)
    (hmk : w.perf.marks = []) (hms : w.perf.measures = [])
    (hw1 : w1 = sp w v1 "mark" pos1)
    (hw2 : w2 = sp { w1 with now := w1.now + d } v2 "stamp" pos2) :
    w2.console.general =
      w.console.general ++ [⟨w.now + d, stampMsg w.now (d : Int)⟩] ∧
    w2.console.general.length = w.console.general.length + 1 ∧
    (0 : Int) ≤ (d : Int) ∧
    w2.perf.marks = [] ∧ w2.perf.measures = [] := by
  have e1 := sp_mark_eq w ref v1 pos1 hsel
  have hw1perf : w1.perf = perfMark w.perf "ins-mark" w.now := by
    rw [hw1, e1, inspectElement_perf]
  have hw1console : w1.console = w.console := by
    rw [hw1, e1, inspectElement_console]
  have hw1now : w1.now = w.now := by
    rw [hw1, e1, inspectElement_now]
  have hw1sel : w1.insp.selected = some ref := by
    rw [hw1, e1]
    exact inspectElement_selected_stable _ ref pos1 hsel
  have hpS : ({ w1 with now := w1.now + d } : World).perf =
      ⟨[⟨"ins-mark", w.now⟩], []⟩ := by
    show w1.perf = _
    rw [hw1perf]
    simp [perfMark, hmk, hms]
  have hnowS : ({ w1 with now := w1.now + d } : World).now = w.now + d := by
    show w1.now + d = _
    rw [hw1now]
  have hconS : ({ w1 with now := w1.now + d } : World).console = w.console := by
    show w1.console = _
    exact hw1console
  have hstamp := spStamp_single_mark { w1 with now := w1.now + d } w.now hpS
  have hselS : ({ w1 with now := w1.now + d } : World).insp.selected =
      some ref := hw1sel
  have e2 : sp { w1 with now := w1.now + d } v2 "stamp" pos2 =
      inspectElement (spStamp { w1 with now := w1.now + d }).1 ref pos2 := by
    unfold sp
    rw [hselS]
    simp [hstamp]
  have hw2eq : w2 =
      inspectElement (spStamp { w1 with now := w1.now + d }).1 ref pos2 := by
    rw [hw2, e2]
  have hdur : ((w.now + d : Nat) : Int) - (w.now : Int) = (d : Int) := by
    push_cast
    ring
  have hw2console : w2.console =
      consoleLog (w.now + d) (some (stampMsg w.now (d : Int))) w.console := by
    rw [hw2eq, inspectElement_console, hstamp, hnowS, hconS, hdur]
  have hw2perf : w2.perf = ⟨[], []⟩ := by
    rw [hw2eq, inspectElement_perf, hstamp]
  have hgen : w2.console.general =
      w.console.general ++ [⟨w.now + d, stampMsg w.now (d : Int)⟩] := by
    rw [hw2console]
    rfl
  refine ⟨hgen, by rw [hgen]; simp, by positivity, by rw [hw2perf], by rw [hw2perf]⟩

theorem mark_then_stamp_witness :
    (sp { (sp sampleWorld "" "mark" (1, 2)) with
        now := (sp sampleWorld "" "mark" (1, 2)).now + 7 }
      "" "stamp" (3, 4)).console.general =
      sampleWorld.console.general ++
        [⟨sampleWorld.now + 7, stampMsg sampleWorld.now (7 : Int)⟩] ∧
    (sp { (sp sampleWorld "" "mark" (1, 2)) with
        now := (sp sampleWorld "" "mark" (1, 2)).now + 7 }
      "" "stamp" (3, 4)).console.general.length =
      sampleWorld.console.general.length + 1 ∧
    (0 : Int) ≤ (7 : Int) ∧
    (sp { (sp sampleWorld "" "mark" (1, 2)) with
        now := (sp sampleWorld "" "mark" (1, 2)).now + 7 }
      "" "stamp" (3, 4)).perf.marks = [] ∧
    (sp { (sp sampleWorld "" "mark" (1, 2)) with
        now := (sp sampleWorld "" "mark" (1, 2)).now + 7 }
      "" "stamp" (3, 4)).perf.measures = [] :=
  mark_then_stamp sampleWorld (sp sampleWorld "" "mark" (1, 2)) _ 0 "" ""
    (1, 2) (3, 4) 7 rfl rfl rfl rfl rfl
